import Mathlib

/-!
Shallow embedding of `src/clutter/clutter/clutter-seat.c` (the abstract
ClutterSeat input-seat class of mutter's clutter fork).

The file models the seat's private state (`inhibit_unfocus_count`,
`pointer_a11y_settings`), its public operations, and the observable side
effects (signal emissions, accessibility-subsystem hook calls, warnings,
device disposal) as explicit traces, and proves the spec claims about them.

C integers become `Nat`, with wrap-around kept where the source can wrap:
the `unsigned int` inhibit counter is reduced modulo 2^32 (`UINT32_CARD`)
at its unguarded increment, while its decrement sits behind a zero check
and so can never wrap.  Signals and external hook invocations are returned
as values.  Dereferencing a possibly-invalid handle is modelled with
`Except Unit`: `Except.error ()` marks the undefined behaviour of
dereferencing an invalid pointer, while a `g_return_*_if_fail` guard that
bails out returns the sentinel inside `Except.ok`.
-/

/-- Modelled from the spec: `ClutterPointerA11ySettings` is declared in a
header outside this excerpt.  The spec says its fields include a `controls`
bitmask, a `dwell_click_type` enum, and other accessibility parameters; the
code (`are_pointer_a11y_settings_equal`) compares the whole struct bytewise,
so the remaining parameters are collapsed into one `other_fields` component
that participates in equality. -/
structure ClutterPointerA11ySettings where
  controls : Nat
  dwell_click_type : Nat
  other_fields : Nat
deriving DecidableEq

/-- Private per-seat state (`struct _ClutterSeatPrivate`, clutter-seat.c:62-68). -/
structure ClutterSeatPrivate where
  inhibit_unfocus_count : Nat
  pointer_a11y_settings : ClutterPointerA11ySettings
deriving DecidableEq

/-- Invocation of one of the pointer-accessibility subsystem hooks
(`_clutter_input_pointer_a11y_add_device` /
`_clutter_input_pointer_a11y_remove_device`).  The argument is the
`core_pointer` value passed to the hook: `none` models a NULL
`ClutterInputDevice *`, `some d` a device handle `d`. -/
inductive A11yDeviceCall where
  | addDevice (core_pointer : Option Nat)
  | removeDevice (core_pointer : Option Nat)
deriving DecidableEq

/-- clutter-seat.c:381-386: `memcmp (a, b, sizeof ...) == 0`, i.e. full
bytewise equality of the settings structs. -/
def are_pointer_a11y_settings_equal
    (a b : ClutterPointerA11ySettings) : Bool :=
  a == b

/-- clutter-seat.c:388-396: fetches `core_pointer = clutter_seat_get_pointer
(seat)` and passes it to the add-device hook with no NULL check.  The
`core_pointer` argument is the value `get_pointer` returned. -/
def clutter_seat_enable_pointer_a11y (core_pointer : Option Nat) :
    List A11yDeviceCall :=
  [A11yDeviceCall.addDevice core_pointer]

/-- clutter-seat.c:398-406: fetches the core pointer and passes it to the
remove-device hook with no NULL check. -/
def clutter_seat_disable_pointer_a11y (core_pointer : Option Nat) :
    List A11yDeviceCall :=
  [A11yDeviceCall.removeDevice core_pointer]

/-- clutter-seat.c:367-379: registers the core pointer with the
accessibility subsystem only when `get_pointer` returned a device and the
global pointer-a11y-enabled query holds for it. -/
def clutter_seat_ensure_a11y_state (core_pointer : Option Nat)
    (a11y_enabled : Nat → Bool) : List A11yDeviceCall :=
  match core_pointer with
  | some d => if a11y_enabled d then [A11yDeviceCall.addDevice (some d)] else []
  | none => []

/-- clutter-seat.c:415-432: `clutter_seat_set_pointer_a11y_settings`.
`core_pointer` is what `clutter_seat_get_pointer` returns during the call.
Returns the updated private state and the list of a11y hook invocations. -/
def clutter_seat_set_pointer_a11y_settings (core_pointer : Option Nat)
    (priv : ClutterSeatPrivate) (settings : ClutterPointerA11ySettings) :
    ClutterSeatPrivate × List A11yDeviceCall :=
  if are_pointer_a11y_settings_equal priv.pointer_a11y_settings settings then
    (priv, [])
  else
    let calls :=
      if priv.pointer_a11y_settings.controls == 0 && settings.controls != 0 then
        clutter_seat_enable_pointer_a11y core_pointer
      else if priv.pointer_a11y_settings.controls != 0 && settings.controls == 0 then
        clutter_seat_disable_pointer_a11y core_pointer
      else
        []
    ({ priv with pointer_a11y_settings := settings }, calls)

/-- clutter-seat.c:441-450: copies the stored settings out. -/
def clutter_seat_get_pointer_a11y_settings (priv : ClutterSeatPrivate) :
    ClutterPointerA11ySettings :=
  priv.pointer_a11y_settings

/-- clutter-seat.c:459-468: writes only the `dwell_click_type` sub-field of
the stored settings; no equality check, no hooks.  The empty hook-call list
records that neither a11y hook is invoked. -/
def clutter_seat_set_pointer_a11y_dwell_click_type (priv : ClutterSeatPrivate)
    (click_type : Nat) : ClutterSeatPrivate × List A11yDeviceCall :=
  ({ priv with pointer_a11y_settings :=
      { priv.pointer_a11y_settings with dwell_click_type := click_type } }, [])

/-- Observable outcome of one inhibit/uninhibit call: the new
`inhibit_unfocus_count`, whether the `is-unfocus-inhibited-changed` signal
was emitted, and whether a `g_warning` was logged. -/
structure FocusStepResult where
  count : Nat
  signaled : Bool
  warned : Bool
deriving DecidableEq

/-- Cardinality of the C `unsigned int` type (32 bits): the
`inhibit_unfocus_count` field wraps modulo this value. -/
def UINT32_CARD : Nat :=
  4294967296

/-- clutter-seat.c:481-494: increments the `unsigned int` count — wrapping
modulo `UINT32_CARD` on overflow, as the C `++` does — and emits
`is-unfocus-inhibited-changed` exactly when the new count is 1. -/
def clutter_seat_inhibit_unfocus (count : Nat) : FocusStepResult :=
  let c := (count + 1) % UINT32_CARD
  { count := c, signaled := c == 1, warned := false }

/-- clutter-seat.c:507-526: at count 0 logs a warning and returns without
effect; otherwise decrements and emits the changed signal exactly when the
new count is 0. -/
def clutter_seat_uninhibit_unfocus (count : Nat) : FocusStepResult :=
  if count == 0 then
    { count := 0, signaled := false, warned := true }
  else
    let c := count - 1
    { count := c, signaled := c == 0, warned := false }

/-- clutter-seat.c:537-547: `count > 0` (on a valid seat). -/
def clutter_seat_is_unfocus_inhibited (count : Nat) : Bool :=
  count > 0

/-- One call in a focus-inhibition call sequence. -/
inductive FocusOp where
  | inhibit
  | uninhibit
deriving DecidableEq

/-- Dispatches one focus-inhibition call on the current count. -/
def focusStep (count : Nat) : FocusOp → FocusStepResult
  | FocusOp.inhibit => clutter_seat_inhibit_unfocus count
  | FocusOp.uninhibit => clutter_seat_uninhibit_unfocus count

/-- Count reached by running a call sequence through the code. -/
def runFocusCount (count : Nat) : List FocusOp → Nat
  | [] => count
  | op :: ops => runFocusCount (focusStep count op).count ops

/-- Spec-side net count: increments minus effective decrements, never below
zero (`Nat` subtraction clamps at zero). -/
def specNetCount (count : Nat) : List FocusOp → Nat
  | [] => count
  | FocusOp.inhibit :: ops => specNetCount (count + 1) ops
  | FocusOp.uninhibit :: ops => specNetCount (count - 1) ops

/-- Event type tag: the seat only distinguishes `CLUTTER_DEVICE_ADDED`,
`CLUTTER_DEVICE_REMOVED`, and everything else (the `default:` branch of the
switch in clutter-seat.c:603-614). -/
inductive ClutterEventType where
  | deviceAdded
  | deviceRemoved
  | otherEvent
deriving DecidableEq

/-- The parts of a `ClutterEvent` that `clutter_seat_handle_event_post`
reads: the type tag and the resolved source device (a valid handle, per the
`g_assert_true` on line 601). -/
structure ClutterEvent where
  type : ClutterEventType
  source_device : Nat
deriving DecidableEq

/-- Seat-level side effects of `clutter_seat_handle_event_post`, in
execution order. -/
inductive SeatPostEffect where
  | backendPostHook
  | emitDeviceAdded (device : Nat)
  | emitDeviceRemoved (device : Nat)
  | disposeDevice (device : Nat)
deriving DecidableEq

/-- clutter-seat.c:585-617: `clutter_seat_handle_event_post` on a valid seat
and event.  `has_backend_hook` says whether `seat_class->handle_event_post`
is non-NULL.  Returns the ordered side-effect trace and the boolean result. -/
def clutter_seat_handle_event_post (has_backend_hook : Bool)
    (event : ClutterEvent) : List SeatPostEffect × Bool :=
  let pre := if has_backend_hook then [SeatPostEffect.backendPostHook] else []
  let device := event.source_device
  let post :=
    match event.type with
    | ClutterEventType.deviceAdded => [SeatPostEffect.emitDeviceAdded device]
    | ClutterEventType.deviceRemoved =>
        [SeatPostEffect.emitDeviceRemoved device,
         SeatPostEffect.disposeDevice device]
    | ClutterEventType.otherEvent => []
  (pre ++ post, true)

/-- Modelled from the spec: `ClutterGrabState` is declared in a header
outside this excerpt; the spec only needs the all-encompassing state
(`CLUTTER_GRAB_STATE_ALL`) that the default grab grants, plus the other
named scopes. -/
inductive ClutterGrabState where
  | stateNone
  | statePointer
  | stateKeyboard
  | all
deriving DecidableEq

/-- The vtable entries of `ClutterSeatClass` that the claims touch.  `grab`
and `ungrab` are optional function pointers (NULL when the backend does not
implement them); `ungrab` is modelled as a transformer of an opaque backend
state so that the default no-op is observable.  `get_keymap` and
`get_supported_virtual_device_types` are mandatory vfuncs, modelled by the
values they return. -/
structure ClutterSeatClass where
  grab : Option (Nat → ClutterGrabState)
  ungrab : Option (Nat → Nat → Nat)
  get_keymap : Nat
  get_supported_virtual_device_types : Nat

/-- A seat handle as passed to the public entry points: `none` is a NULL or
invalid pointer, `some` a valid seat with its class and private state. -/
def ClutterSeatHandle : Type := Option (ClutterSeatClass × ClutterSeatPrivate)

/-- `CLUTTER_SEAT_GET_CLASS (seat)` dereferences the handle: on an invalid
handle this is undefined behaviour, modelled as `Except.error ()`. -/
def CLUTTER_SEAT_GET_CLASS (seat : ClutterSeatHandle) :
    Except Unit ClutterSeatClass :=
  match seat with
  | some s => Except.ok s.1
  | none => Except.error ()

/-- clutter-seat.c:347-351: `clutter_seat_bell_notify` has no
`g_return_if_fail` guard; it immediately dereferences the handle via
`CLUTTER_SEAT_GET_CLASS` and invokes the `bell_notify` vfunc. -/
def clutter_seat_bell_notify (seat : ClutterSeatHandle) : Except Unit Unit := do
  let _seat_class ← CLUTTER_SEAT_GET_CLASS seat
  pure ()

/-- clutter-seat.c:361-365: `clutter_seat_get_keymap` has no guard either;
it dereferences the handle and returns what the `get_keymap` vfunc returns. -/
def clutter_seat_get_keymap (seat : ClutterSeatHandle) : Except Unit Nat := do
  let seat_class ← CLUTTER_SEAT_GET_CLASS seat
  pure seat_class.get_keymap

/-- clutter-seat.c:727-738: `clutter_seat_grab` has no guard; it
dereferences the handle, then calls the `grab` vfunc when present and
otherwise returns `CLUTTER_GRAB_STATE_ALL`. -/
def clutter_seat_grab (seat : ClutterSeatHandle) (time : Nat) :
    Except Unit ClutterGrabState := do
  let seat_class ← CLUTTER_SEAT_GET_CLASS seat
  match seat_class.grab with
  | some f => pure (f time)
  | none => pure ClutterGrabState.all

/-- clutter-seat.c:740-749: `clutter_seat_ungrab` has no guard; it
dereferences the handle, then calls the `ungrab` vfunc when present and
otherwise does nothing (the backend state is returned unchanged). -/
def clutter_seat_ungrab (seat : ClutterSeatHandle) (time : Nat)
    (backend_state : Nat) : Except Unit Nat := do
  let seat_class ← CLUTTER_SEAT_GET_CLASS seat
  match seat_class.ungrab with
  | some f => pure (f time backend_state)
  | none => pure backend_state

/-- clutter-seat.c:537-547, public entry point: guarded by
`g_return_val_if_fail (CLUTTER_IS_SEAT (seat), FALSE)`, so an invalid
handle yields the FALSE sentinel without any dereference. -/
def clutter_seat_is_unfocus_inhibited_entry (seat : ClutterSeatHandle) :
    Except Unit Bool :=
  match seat with
  | none => Except.ok false
  | some s => Except.ok (clutter_seat_is_unfocus_inhibited s.2.inhibit_unfocus_count)

/-- clutter-seat.c:573-583, public entry point: guarded by
`g_return_val_if_fail (CLUTTER_IS_SEAT (seat),
CLUTTER_VIRTUAL_DEVICE_TYPE_NONE)`; the empty-bitmask sentinel is 0. -/
def clutter_seat_get_supported_virtual_device_types_entry
    (seat : ClutterSeatHandle) : Except Unit Nat :=
  match seat with
  | none => Except.ok 0
  | some s => Except.ok s.1.get_supported_virtual_device_types

/-- Device mode discriminant (`clutter_input_device_get_device_mode`); the
seat code only tests against `CLUTTER_INPUT_MODE_LOGICAL`. -/
inductive ClutterInputMode where
  | logical
  | physical
  | floating
deriving DecidableEq

/-- Device type discriminant (`clutter_input_device_get_device_type`); the
seat code only tests against `CLUTTER_TOUCHSCREEN_DEVICE`. -/
inductive ClutterInputDeviceType where
  | pointerDevice
  | keyboardDevice
  | touchscreenDevice
  | otherDevice
deriving DecidableEq

/-- The parts of a `ClutterInputDevice` that the seat's device-list
predicates read. -/
structure ClutterInputDevice where
  device_mode : ClutterInputMode
  device_type : ClutterInputDeviceType
deriving DecidableEq

/-- clutter-seat.c:668-690: walks `peek_devices` and stops at the first
device that is not logical and is a touchscreen. -/
def clutter_seat_has_touchscreen (devices : List ClutterInputDevice) : Bool :=
  devices.any fun device =>
    device.device_mode != ClutterInputMode.logical &&
    device.device_type == ClutterInputDeviceType.touchscreenDevice

/-- clutter-seat.c:86-100: the base-class `get_property` handler for
`PROP_TOUCH_MODE` sets the value to FALSE unconditionally
(`g_value_set_boolean (value, FALSE)`). -/
def clutter_seat_get_property_touch_mode : Bool :=
  false

/-- clutter-seat.c:653-663: `clutter_seat_get_touch_mode` reads the
touch-mode property via `g_object_get`, which for the class in this file
lands in the base `get_property` handler; the seat's device list is never
consulted. -/
def clutter_seat_get_touch_mode (_devices : List ClutterInputDevice) : Bool :=
  clutter_seat_get_property_touch_mode

/-- As long as the spec's net count stays below 2^32 on every prefix of the
call sequence, the wrapping code counter never actually wraps and evolves
exactly like the spec's clamped net count. -/
theorem runFocusCount_eq_specNetCount_of_bounded (ops : List FocusOp) :
    ∀ c : Nat, (∀ n, specNetCount c (List.take n ops) < UINT32_CARD) →
      runFocusCount c ops = specNetCount c ops := by
  induction ops with
  | nil => intro c _; rfl
  | cons op ops ih =>
    intro c h
    cases op with
    | inhibit =>
      have h1 : c + 1 < UINT32_CARD := by
        have h2 := h 1
        rw [List.take_succ_cons, List.take_zero] at h2
        exact h2
      have hrest : ∀ n, specNetCount (c + 1) (List.take n ops) < UINT32_CARD := by
        intro n
        have h2 := h (n + 1)
        rw [List.take_succ_cons] at h2
        exact h2
      have hunfold : runFocusCount c (FocusOp.inhibit :: ops) =
          runFocusCount ((c + 1) % UINT32_CARD) ops := rfl
      rw [hunfold, Nat.mod_eq_of_lt h1]
      exact ih (c + 1) hrest
    | uninhibit =>
      rcases c with _ | m
      · refine ih 0 ?_
        intro n
        have h2 := h (n + 1)
        rw [List.take_succ_cons] at h2
        exact h2
      · refine ih m ?_
        intro n
        have h2 := h (n + 1)
        rw [List.take_succ_cons] at h2
        exact h2

/-- A run of n consecutive inhibit calls moves the wrapping code counter
from c to (c + n) mod 2^32. -/
theorem runFocusCount_replicate_inhibit (n : Nat) :
    ∀ c : Nat, c < UINT32_CARD →
      runFocusCount c (List.replicate n FocusOp.inhibit) =
        (c + n) % UINT32_CARD := by
  induction n with
  | zero =>
    intro c hc
    simpa using (Nat.mod_eq_of_lt hc).symm
  | succ n ih =>
    intro c hc
    rw [List.replicate_succ]
    have hstep : runFocusCount c
          (FocusOp.inhibit :: List.replicate n FocusOp.inhibit) =
        runFocusCount ((c + 1) % UINT32_CARD)
          (List.replicate n FocusOp.inhibit) := rfl
    rw [hstep, ih ((c + 1) % UINT32_CARD) (Nat.mod_lt _ (by decide)),
      Nat.mod_add_mod]
    congr 1
    omega

/-- A run of n consecutive inhibit calls adds n to the spec's net count. -/
theorem specNetCount_replicate_inhibit (n : Nat) :
    ∀ c : Nat, specNetCount c (List.replicate n FocusOp.inhibit) = c + n := by
  induction n with
  | zero => intro c; rfl
  | succ n ih =>
    intro c
    rw [List.replicate_succ]
    have hstep : specNetCount c
          (FocusOp.inhibit :: List.replicate n FocusOp.inhibit) =
        specNetCount (c + 1) (List.replicate n FocusOp.inhibit) := rfl
    rw [hstep, ih (c + 1)]
    omega

/-- C1 counterexample: after 2^32 inhibit calls from count 0 the
`unsigned int` counter wraps to 0, so `is_unfocus_inhibited` is false while
the claim's net count is 2^32 > 0; and the wrap step itself (inhibit at
count 2^32 − 1) flips the inhibited state from true to false yet emits no
`is-unfocus-inhibited-changed` signal — refuting both the claimed iff and
the claimed signal exactness. -/
theorem unfocus_inhibit_refcount_counterexample :
    clutter_seat_is_unfocus_inhibited
        (runFocusCount 0 (List.replicate UINT32_CARD FocusOp.inhibit)) = false ∧
    specNetCount 0 (List.replicate UINT32_CARD FocusOp.inhibit) > 0 ∧
    clutter_seat_is_unfocus_inhibited (UINT32_CARD - 1) = true ∧
    (clutter_seat_inhibit_unfocus (UINT32_CARD - 1)).signaled = false ∧
    clutter_seat_is_unfocus_inhibited
        (clutter_seat_inhibit_unfocus (UINT32_CARD - 1)).count = false := by
  refine ⟨?_, ?_, ?_, ?_, ?_⟩
  · rw [runFocusCount_replicate_inhibit UINT32_CARD 0 (by decide)]
    decide
  · rw [specNetCount_replicate_inhibit UINT32_CARD 0]
    decide
  · decide
  · decide
  · decide

/-- C1 (amended): for call sequences from count 0 whose net count stays
below 2^32 on every prefix — so the `unsigned int` counter never
overflows — `is_unfocus_inhibited` holds iff the net count (increments
minus effective decrements, clamped at zero) is positive, and each call
whose incremented count stays below 2^32 emits
`is-unfocus-inhibited-changed` exactly when it flips the inhibited state
across the 0/1 boundary — once per 0→1, once per 1→0, never on any other
count change. -/
theorem unfocus_inhibit_refcount_spec (ops : List FocusOp)
    (hbound : ∀ n, specNetCount 0 (List.take n ops) < UINT32_CARD) :
    clutter_seat_is_unfocus_inhibited (runFocusCount 0 ops) =
      decide (specNetCount 0 ops > 0) ∧
    ∀ (count : Nat) (op : FocusOp), count + 1 < UINT32_CARD →
      (focusStep count op).signaled =
        (clutter_seat_is_unfocus_inhibited (focusStep count op).count !=
          clutter_seat_is_unfocus_inhibited count) := by
  constructor
  · rw [runFocusCount_eq_specNetCount_of_bounded ops 0 hbound]
    rfl
  · intro count op hlt
    cases op with
    | inhibit =>
      show ((count + 1) % UINT32_CARD == 1) =
        (clutter_seat_is_unfocus_inhibited ((count + 1) % UINT32_CARD) !=
          clutter_seat_is_unfocus_inhibited count)
      rw [Nat.mod_eq_of_lt hlt]
      rcases count with _ | n <;>
        simp [clutter_seat_is_unfocus_inhibited]
    | uninhibit =>
      rcases count with _ | _ | n <;>
        simp [focusStep, clutter_seat_uninhibit_unfocus,
          clutter_seat_is_unfocus_inhibited]

/-- Witness for the amended C1 at a concrete sequence: one inhibit then
one uninhibit stays below the wrap bound; the final state is uninhibited
with net count 0, and the first inhibit (count 0, no overflow) emits the
signal as it flips the state. -/
theorem unfocus_inhibit_refcount_spec_witness :
    clutter_seat_is_unfocus_inhibited
        (runFocusCount 0 [FocusOp.inhibit, FocusOp.uninhibit]) =
      decide (specNetCount 0 [FocusOp.inhibit, FocusOp.uninhibit] > 0) ∧
    (focusStep 0 FocusOp.inhibit).signaled =
      (clutter_seat_is_unfocus_inhibited (focusStep 0 FocusOp.inhibit).count !=
        clutter_seat_is_unfocus_inhibited 0) :=
  have h := unfocus_inhibit_refcount_spec [FocusOp.inhibit, FocusOp.uninhibit]
    (by
      intro n
      rcases n with _ | _ | n
      · decide
      · decide
      · rw [List.take_succ_cons, List.take_succ_cons, List.take_nil]
        decide)
  ⟨h.1, h.2 0 FocusOp.inhibit (by decide)⟩

/-- C7: calling `uninhibit_unfocus` at count 0 logs the misuse warning,
leaves the count at 0, and emits no changed signal — a non-fatal no-op. -/
theorem uninhibit_unfocus_at_zero_noop :
    clutter_seat_uninhibit_unfocus 0 =
      { count := 0, signaled := false, warned := true } :=
  rfl

/-- After any `set_pointer_a11y_settings` call, the stored settings equal
the argument: the non-equal branch overwrites them, and in the equal branch
they already coincide. -/
theorem set_pointer_a11y_settings_stores (core_pointer : Option Nat)
    (priv : ClutterSeatPrivate) (s : ClutterPointerA11ySettings) :
    (clutter_seat_set_pointer_a11y_settings core_pointer priv s).1.pointer_a11y_settings
      = s := by
  unfold clutter_seat_set_pointer_a11y_settings
  by_cases h : priv.pointer_a11y_settings = s
  · simp [are_pointer_a11y_settings_equal, h]
  · simp [are_pointer_a11y_settings_equal, h]

/-- C5: a second call with settings bitwise-identical to what the first
call stored is a complete no-op — same state back, no hook invocations. -/
theorem set_pointer_a11y_settings_idempotent (core_pointer : Option Nat)
    (priv : ClutterSeatPrivate) (s : ClutterPointerA11ySettings) :
    clutter_seat_set_pointer_a11y_settings core_pointer
        (clutter_seat_set_pointer_a11y_settings core_pointer priv s).1 s =
      ((clutter_seat_set_pointer_a11y_settings core_pointer priv s).1, []) := by
  have h1 := set_pointer_a11y_settings_stores core_pointer priv s
  generalize hp : (clutter_seat_set_pointer_a11y_settings core_pointer priv s).1 = p1 at h1 ⊢
  unfold clutter_seat_set_pointer_a11y_settings
  simp [are_pointer_a11y_settings_equal, h1]

/-- C6: `set_pointer_a11y_dwell_click_type` writes only the
`dwell_click_type` sub-field — `controls`, the remaining settings fields
and the inhibit count are untouched — and invokes no a11y hook, even when
`controls` was previously 0. -/
theorem set_dwell_click_type_frame (priv : ClutterSeatPrivate) (click_type : Nat) :
    (clutter_seat_set_pointer_a11y_dwell_click_type priv click_type).1.pointer_a11y_settings.dwell_click_type
        = click_type ∧
    (clutter_seat_set_pointer_a11y_dwell_click_type priv click_type).1.pointer_a11y_settings.controls
        = priv.pointer_a11y_settings.controls ∧
    (clutter_seat_set_pointer_a11y_dwell_click_type priv click_type).1.pointer_a11y_settings.other_fields
        = priv.pointer_a11y_settings.other_fields ∧
    (clutter_seat_set_pointer_a11y_dwell_click_type priv click_type).1.inhibit_unfocus_count
        = priv.inhibit_unfocus_count ∧
    (clutter_seat_set_pointer_a11y_dwell_click_type priv click_type).2 = [] :=
  ⟨rfl, rfl, rfl, rfl, rfl⟩

/-- Hook-invocation trace of a non-no-op `set_pointer_a11y_settings` call:
the add-device hook on a 0→nonzero `controls` transition, the remove-device
hook on a nonzero→0 transition, nothing otherwise. -/
theorem set_pointer_a11y_settings_calls (core_pointer : Option Nat)
    (priv : ClutterSeatPrivate) (s : ClutterPointerA11ySettings)
    (hneq : priv.pointer_a11y_settings ≠ s) :
    (clutter_seat_set_pointer_a11y_settings core_pointer priv s).2 =
      if priv.pointer_a11y_settings.controls = 0 ∧ s.controls ≠ 0 then
        [A11yDeviceCall.addDevice core_pointer]
      else if priv.pointer_a11y_settings.controls ≠ 0 ∧ s.controls = 0 then
        [A11yDeviceCall.removeDevice core_pointer]
      else
        [] := by
  unfold clutter_seat_set_pointer_a11y_settings
  by_cases h0 : priv.pointer_a11y_settings.controls = 0 <;>
    by_cases hs : s.controls = 0 <;>
      simp [are_pointer_a11y_settings_equal, hneq, h0, hs,
        clutter_seat_enable_pointer_a11y, clutter_seat_disable_pointer_a11y]

/-- Sample private state with zeroed settings, used by witnesses. -/
def samplePrivZero : ClutterSeatPrivate :=
  { inhibit_unfocus_count := 0,
    pointer_a11y_settings := { controls := 0, dwell_click_type := 0, other_fields := 0 } }

/-- Sample settings with nonzero `controls`, used by witnesses. -/
def sampleSettingsOn : ClutterPointerA11ySettings :=
  { controls := 1, dwell_click_type := 2, other_fields := 3 }

/-- Sample settings with zero `controls`, used by witnesses. -/
def sampleSettingsOff : ClutterPointerA11ySettings :=
  { controls := 0, dwell_click_type := 2, other_fields := 3 }

/-- C2: on a call whose settings differ from the stored ones, the full
struct is stored (and read back by the getter), the add-device hook fires
exactly on a 0→nonzero `controls` transition, the remove-device hook
exactly on a nonzero→0 transition, no hook otherwise; and the sequence
controls 0→nonzero→0 fires the enable hook exactly once, then the disable
hook exactly once. -/
theorem set_pointer_a11y_settings_transitions (core_pointer : Option Nat)
    (priv : ClutterSeatPrivate) (s b : ClutterPointerA11ySettings)
    (hneq : priv.pointer_a11y_settings ≠ s) :
    (clutter_seat_set_pointer_a11y_settings core_pointer priv s).1.pointer_a11y_settings = s ∧
    clutter_seat_get_pointer_a11y_settings
        (clutter_seat_set_pointer_a11y_settings core_pointer priv s).1 = s ∧
    (priv.pointer_a11y_settings.controls = 0 → s.controls ≠ 0 →
      (clutter_seat_set_pointer_a11y_settings core_pointer priv s).2 =
        [A11yDeviceCall.addDevice core_pointer]) ∧
    (priv.pointer_a11y_settings.controls ≠ 0 → s.controls = 0 →
      (clutter_seat_set_pointer_a11y_settings core_pointer priv s).2 =
        [A11yDeviceCall.removeDevice core_pointer]) ∧
    ((priv.pointer_a11y_settings.controls = 0 ↔ s.controls = 0) →
      (clutter_seat_set_pointer_a11y_settings core_pointer priv s).2 = []) ∧
    (priv.pointer_a11y_settings.controls = 0 → s.controls ≠ 0 → b.controls = 0 →
      (clutter_seat_set_pointer_a11y_settings core_pointer priv s).2 =
        [A11yDeviceCall.addDevice core_pointer] ∧
      (clutter_seat_set_pointer_a11y_settings core_pointer
          (clutter_seat_set_pointer_a11y_settings core_pointer priv s).1 b).2 =
        [A11yDeviceCall.removeDevice core_pointer]) := by
  have hstore := set_pointer_a11y_settings_stores core_pointer priv s
  have hcalls := set_pointer_a11y_settings_calls core_pointer priv s hneq
  refine ⟨hstore, hstore, ?_, ?_, ?_, ?_⟩
  · intro h0 hs
    rw [hcalls]; simp [h0, hs]
  · intro h0 hs
    rw [hcalls]; simp [h0, hs]
  · intro hiff
    rw [hcalls]
    by_cases h0 : priv.pointer_a11y_settings.controls = 0
    · simp [h0, hiff.mp h0]
    · have hs : ¬s.controls = 0 := fun hs => h0 (hiff.mpr hs)
      simp [h0, hs]
  · intro h0 hs hb
    refine ⟨by rw [hcalls]; simp [h0, hs], ?_⟩
    have hneq2 :
        (clutter_seat_set_pointer_a11y_settings core_pointer priv s).1.pointer_a11y_settings
          ≠ b := by
      rw [hstore]
      intro he
      exact hs (he ▸ hb)
    have hcalls2 := set_pointer_a11y_settings_calls core_pointer
      (clutter_seat_set_pointer_a11y_settings core_pointer priv s).1 b hneq2
    rw [hcalls2, hstore]
    simp [hs, hb]

/-- Witness for C2 at concrete inputs: settings differ, a 0→1 `controls`
transition fires the add-device hook, and the follow-up 1→0 call on the
updated state fires the remove-device hook. -/
theorem set_pointer_a11y_settings_transitions_witness :
    samplePrivZero.pointer_a11y_settings ≠ sampleSettingsOn ∧
    (clutter_seat_set_pointer_a11y_settings (some 5) samplePrivZero
        sampleSettingsOn).1.pointer_a11y_settings = sampleSettingsOn ∧
    (clutter_seat_set_pointer_a11y_settings (some 5) samplePrivZero
        sampleSettingsOn).2 = [A11yDeviceCall.addDevice (some 5)] ∧
    (clutter_seat_set_pointer_a11y_settings (some 5)
        (clutter_seat_set_pointer_a11y_settings (some 5) samplePrivZero
          sampleSettingsOn).1 sampleSettingsOff).2 =
      [A11yDeviceCall.removeDevice (some 5)] :=
  have h := set_pointer_a11y_settings_transitions (some 5) samplePrivZero
    sampleSettingsOn sampleSettingsOff (by decide)
  ⟨by decide, h.1, h.2.2.1 rfl (by decide), (h.2.2.2.2.2 rfl (by decide) rfl).2⟩

/-- C3: `handle_event_post` on a valid seat and event always returns true,
runs the backend post-processing hook first when the backend defines one,
emits device-added for a DEVICE_ADDED event, emits device-removed and then
disposes the device for a DEVICE_REMOVED event, and performs no seat-level
side effect for any other event type. -/
theorem handle_event_post_spec (has_backend_hook : Bool) (event : ClutterEvent) :
    (clutter_seat_handle_event_post has_backend_hook event).2 = true ∧
    (has_backend_hook = true →
      (clutter_seat_handle_event_post has_backend_hook event).1.head? =
        some SeatPostEffect.backendPostHook) ∧
    (event.type = ClutterEventType.deviceAdded →
      (clutter_seat_handle_event_post has_backend_hook event).1 =
        (if has_backend_hook then [SeatPostEffect.backendPostHook] else []) ++
          [SeatPostEffect.emitDeviceAdded event.source_device]) ∧
    (event.type = ClutterEventType.deviceRemoved →
      (clutter_seat_handle_event_post has_backend_hook event).1 =
        (if has_backend_hook then [SeatPostEffect.backendPostHook] else []) ++
          [SeatPostEffect.emitDeviceRemoved event.source_device,
           SeatPostEffect.disposeDevice event.source_device]) ∧
    (event.type = ClutterEventType.otherEvent →
      (clutter_seat_handle_event_post has_backend_hook event).1 =
        (if has_backend_hook then [SeatPostEffect.backendPostHook] else [])) := by
  refine ⟨rfl, ?_, ?_, ?_, ?_⟩
  · intro h
    subst h
    simp [clutter_seat_handle_event_post]
  · intro h
    simp [clutter_seat_handle_event_post, h]
  · intro h
    simp [clutter_seat_handle_event_post, h]
  · intro h
    simp [clutter_seat_handle_event_post, h]

/-- Witness for C3 at a concrete input: a DEVICE_REMOVED event on a seat
with a backend hook yields handled = true and the trace backend hook, then
removed signal, then device disposal. -/
theorem handle_event_post_spec_witness :
    (clutter_seat_handle_event_post true ⟨ClutterEventType.deviceRemoved, 4⟩).2 = true ∧
    (clutter_seat_handle_event_post true ⟨ClutterEventType.deviceRemoved, 4⟩).1 =
      [SeatPostEffect.backendPostHook, SeatPostEffect.emitDeviceRemoved 4,
       SeatPostEffect.disposeDevice 4] :=
  have h := handle_event_post_spec true ⟨ClutterEventType.deviceRemoved, 4⟩
  ⟨h.1, h.2.2.2.1 rfl⟩

/-- C10: on an enable or disable `controls` transition,
`set_pointer_a11y_settings` invokes the add/remove-device hook even when
`get_pointer` returned NULL, passing the NULL pointer through unchecked
(`enable_pointer_a11y`/`disable_pointer_a11y` have no NULL guard) — whereas
`ensure_a11y_state` registers the pointer only when one is present and
pointer accessibility is enabled for it. -/
theorem a11y_hooks_pass_null_pointer (priv : ClutterSeatPrivate)
    (s : ClutterPointerA11ySettings) (a11y_enabled : Nat → Bool) (d : Nat) :
    (priv.pointer_a11y_settings.controls = 0 → s.controls ≠ 0 →
      (clutter_seat_set_pointer_a11y_settings none priv s).2 =
        [A11yDeviceCall.addDevice none]) ∧
    (priv.pointer_a11y_settings.controls ≠ 0 → s.controls = 0 →
      (clutter_seat_set_pointer_a11y_settings none priv s).2 =
        [A11yDeviceCall.removeDevice none]) ∧
    clutter_seat_enable_pointer_a11y none = [A11yDeviceCall.addDevice none] ∧
    clutter_seat_disable_pointer_a11y none = [A11yDeviceCall.removeDevice none] ∧
    clutter_seat_ensure_a11y_state none a11y_enabled = [] ∧
    clutter_seat_ensure_a11y_state (some d) a11y_enabled =
      (if a11y_enabled d then [A11yDeviceCall.addDevice (some d)] else []) := by
  refine ⟨?_, ?_, rfl, rfl, rfl, rfl⟩
  · intro h0 hs
    have hneq : priv.pointer_a11y_settings ≠ s := fun he => hs (he ▸ h0)
    rw [set_pointer_a11y_settings_calls none priv s hneq]
    simp [h0, hs]
  · intro h0 hs
    have hneq : priv.pointer_a11y_settings ≠ s := fun he => h0 (by rw [he]; exact hs)
    rw [set_pointer_a11y_settings_calls none priv s hneq]
    simp [h0, hs]

/-- Witness for C10 at concrete inputs: an enable transition with a NULL
core pointer still calls the add-device hook with NULL, and
`ensure_a11y_state` with no pointer registers nothing. -/
theorem a11y_hooks_pass_null_pointer_witness :
    samplePrivZero.pointer_a11y_settings.controls = 0 ∧
    sampleSettingsOn.controls ≠ 0 ∧
    (clutter_seat_set_pointer_a11y_settings none samplePrivZero sampleSettingsOn).2 =
      [A11yDeviceCall.addDevice none] ∧
    clutter_seat_ensure_a11y_state none (fun _ => true) = [] :=
  have h := a11y_hooks_pass_null_pointer samplePrivZero sampleSettingsOn
    (fun _ => true) 7
  ⟨rfl, by decide, h.1 rfl (by decide), h.2.2.2.2.1⟩

/-- C4 counterexample: `bell_notify`, `get_keymap`, `grab` and `ungrab`
have no validity guard — called on an invalid (NULL) seat handle they
dereference it via `CLUTTER_SEAT_GET_CLASS`, contradicting the claim that
every public accessor returns a neutral sentinel without dereferencing. -/
theorem invalid_handle_counterexample :
    clutter_seat_bell_notify none = Except.error () ∧
    clutter_seat_get_keymap none = Except.error () ∧
    clutter_seat_grab none 0 = Except.error () ∧
    clutter_seat_ungrab none 0 0 = Except.error () :=
  ⟨rfl, rfl, rfl, rfl⟩

/-- C4 amended: public entry points that begin with a
`g_return_*_if_fail (CLUTTER_IS_SEAT ...)` guard return their neutral
sentinel on an invalid handle without dereferencing it (FALSE for
`is_unfocus_inhibited`, the empty virtual-device-type set for
`get_supported_virtual_device_types`), but `bell_notify`, `get_keymap`,
`grab` and `ungrab` lack the guard and dereference the invalid handle. -/
theorem invalid_handle_guard_policy (time backend_state : Nat) :
    clutter_seat_is_unfocus_inhibited_entry none = Except.ok false ∧
    clutter_seat_get_supported_virtual_device_types_entry none = Except.ok 0 ∧
    clutter_seat_bell_notify none = Except.error () ∧
    clutter_seat_get_keymap none = Except.error () ∧
    clutter_seat_grab none time = Except.error () ∧
    clutter_seat_ungrab none time backend_state = Except.error () :=
  ⟨rfl, rfl, rfl, rfl, rfl, rfl⟩

/-- C8: on a valid seat whose backend implements neither `grab` nor
`ungrab`, `clutter_seat_grab` returns `CLUTTER_GRAB_STATE_ALL` for every
time argument and `clutter_seat_ungrab` leaves the backend state
unchanged. -/
theorem grab_ungrab_defaults (cls : ClutterSeatClass) (priv : ClutterSeatPrivate)
    (time backend_state : Nat)
    (hg : cls.grab = none) (hu : cls.ungrab = none) :
    clutter_seat_grab (some (cls, priv)) time = Except.ok ClutterGrabState.all ∧
    clutter_seat_ungrab (some (cls, priv)) time backend_state =
      Except.ok backend_state := by
  constructor
  · have h1 : clutter_seat_grab (some (cls, priv)) time =
        (match cls.grab with
          | some f => pure (f time)
          | none => pure ClutterGrabState.all) := rfl
    rw [h1, hg]
    rfl
  · have h2 : clutter_seat_ungrab (some (cls, priv)) time backend_state =
        (match cls.ungrab with
          | some f => pure (f time backend_state)
          | none => pure backend_state) := rfl
    rw [h2, hu]
    rfl

/-- Sample seat class with no grab/ungrab implementation, used by the C8
witness. -/
def sampleClassNoGrab : ClutterSeatClass :=
  { grab := none, ungrab := none, get_keymap := 11,
    get_supported_virtual_device_types := 0 }

/-- Witness for C8 at concrete inputs: with both vfuncs absent, grab
grants the all-encompassing state and ungrab is a no-op. -/
theorem grab_ungrab_defaults_witness :
    sampleClassNoGrab.grab = none ∧ sampleClassNoGrab.ungrab = none ∧
    (clutter_seat_grab (some (sampleClassNoGrab, samplePrivZero)) 3 =
        Except.ok ClutterGrabState.all ∧
      clutter_seat_ungrab (some (sampleClassNoGrab, samplePrivZero)) 3 9 =
        Except.ok 9) :=
  ⟨rfl, rfl, grab_ungrab_defaults sampleClassNoGrab samplePrivZero 3 9 rfl rfl⟩

/-- Sample physical touchscreen device, used by the C9 counterexample. -/
def sampleTouchscreen : ClutterInputDevice :=
  { device_mode := ClutterInputMode.physical,
    device_type := ClutterInputDeviceType.touchscreenDevice }

/-- C9 counterexample: with a device list holding one non-logical
touchscreen, `has_touchscreen` is true but the touch-mode query still
returns false, because the base-class property getter hardcodes FALSE —
refuting the claim that touch mode is true iff such a device is present. -/
theorem touch_mode_counterexample :
    clutter_seat_has_touchscreen [sampleTouchscreen] = true ∧
    clutter_seat_get_touch_mode [sampleTouchscreen] = false := by
  decide

/-- C9 amended: in this file the touch-mode query always returns false
(the base-class `get_property` handler sets FALSE unconditionally; backends
override the property), while `has_touchscreen` is the predicate the claim
describes: true iff the device list holds a non-logical touchscreen, hence
false on the empty list. -/
theorem touch_mode_base_class (devices : List ClutterInputDevice) :
    clutter_seat_get_touch_mode devices = false ∧
    (clutter_seat_has_touchscreen devices = true ↔
      ∃ device ∈ devices,
        device.device_mode ≠ ClutterInputMode.logical ∧
        device.device_type = ClutterInputDeviceType.touchscreenDevice) ∧
    clutter_seat_has_touchscreen [] = false := by
  refine ⟨rfl, ?_, rfl⟩
  simp [clutter_seat_has_touchscreen]
